import Mathlib

/-!
Verification of the flight-simulator core (`src/flight_sim.py`).

The program is embedded shallowly:
* Python floats are modelled as exact rationals (`ℚ`); the program's float
  arithmetic is treated as exact, which is how the specification reads it.
* Python ints are `ℤ` (or `ℕ` for sizes and frame counters); Python `//` on
  nonnegative operands agrees with `Int.fdiv` / `Nat` division.
* `random.randint(a, b)` is modelled by passing the drawn value in explicitly,
  constrained to `[a, b]` by hypotheses where its range matters; the call
  raises `ValueError` when `a > b`, modelled by `Option` where that can occur.
* Mutation is modelled by explicit state passing.
-/

/-- Python `int(x)` applied to a float: truncation toward zero. -/
def pytrunc (q : ℚ) : ℤ := if q < 0 then -⌊-q⌋ else ⌊q⌋

/-- `SimplePlane` (flight_sim.py lines 17–39): altitude and vertical
velocity, both floats in the source, plus the screen height bound. -/
structure SimplePlane where
  altitude : ℚ
  velocity : ℚ
  screen_height : ℤ
deriving DecidableEq

/-- `SimplePlane.__init__` (lines 18–21): altitude starts at
`screen_height // 2` (Python floor division), velocity at 0. -/
def SimplePlane.init (screen_height : ℤ) : SimplePlane :=
  { altitude := ((screen_height.fdiv 2 : ℤ) : ℚ)
    velocity := 0
    screen_height := screen_height }

/-- `SimplePlane.update` (lines 23–39).  The two clamp `if`s of the source
run in sequence; each assignment pair is modelled by a conditional. -/
def SimplePlane.update (p : SimplePlane) (pitch_input : ℤ) : SimplePlane :=
  let gravity : ℚ := 0.3
  let pitch_force : ℚ := (pitch_input : ℚ) * 1.0
  let v1 := (p.velocity + pitch_force - gravity) * 0.9
  let a1 := p.altitude - v1
  let a2 := if a1 < 2 then (2 : ℚ) else a1
  let v2 := if a1 < 2 then (0 : ℚ) else v1
  let a3 := if a2 > (p.screen_height : ℚ) - 3 then (p.screen_height : ℚ) - 3 else a2
  let v3 := if a2 > (p.screen_height : ℚ) - 3 then (0 : ℚ) else v2
  { altitude := a3, velocity := v3, screen_height := p.screen_height }

/-- A run of the plane alone: fold `update` over a list of pitch inputs,
starting from the freshly constructed plane. -/
def runPlane (screen_height : ℤ) (pitches : List ℤ) : SimplePlane :=
  pitches.foldl SimplePlane.update (SimplePlane.init screen_height)

/-- `SimpleGround` (flight_sim.py lines 42–59): a row of per-column ground
heights plus the internal scroll counter `offset`. -/
structure SimpleGround where
  width : ℕ
  heights : List ℤ
  offset : ℕ
deriving DecidableEq

/-- `SimpleGround.__init__` (lines 43–46): `width` random heights, each a
`random.randint(3, 8)` draw; the draws are passed in as `init_draws`. -/
def SimpleGround.init (width : ℕ) (init_draws : ℕ → ℤ) : SimpleGround :=
  { width := width
    heights := (List.range width).map init_draws
    offset := 0 }

/-- `SimpleGround.scroll` (lines 48–54): bump `offset`; on every second call
drop the first height (`pop(0)`, here `tail`) and append a fresh
`random.randint(3, 8)` draw, passed in as `draw`.  (`pop(0)` on an empty
list would raise in Python; `tail` is only reached with `width ≥ 1` in the
claims below.) -/
def SimpleGround.scroll (g : SimpleGround) (draw : ℤ) : SimpleGround :=
  let offset := g.offset + 1
  if offset ≥ 2 then
    { g with offset := 0, heights := g.heights.tail ++ [draw] }
  else
    { g with offset := offset }

/-- `SimpleGround.get_height` (lines 56–59): the height at column `x`, or
the fallback `5` when `x` is out of bounds.  The `getD` default is never
read on the in-bounds branch. -/
def SimpleGround.get_height (g : SimpleGround) (x : ℤ) : ℤ :=
  if 0 ≤ x ∧ x < (g.heights.length : ℤ) then g.heights.getD x.toNat 0 else 5

/-- Iterate bare `scroll` calls, the `n`-th call consuming `draws n`. -/
def iterScroll (draws : ℕ → ℤ) : ℕ → SimpleGround → SimpleGround
  | 0, g => g
  | n + 1, g => (iterScroll draws n g).scroll (draws n)

/-- One game tick's worth of terrain handling (main loop, lines 212–213):
`ground.scroll()` is invoked only on even frame numbers. -/
def tickGround (frame : ℕ) (g : SimpleGround) (draw : ℤ) : SimpleGround :=
  if frame % 2 = 0 then g.scroll draw else g

/-- The terrain component of the game loop over frames `0, …, n-1`; the
draw a shift at frame `f` would consume is `draws f`. -/
def runGround (draws : ℕ → ℤ) : ℕ → SimpleGround → SimpleGround
  | 0, g => g
  | n + 1, g => tickGround n (runGround draws n g) (draws n)

/-- `ScoreManager` (flight_sim.py lines 62–111).  The persisted high-score
file is an external collaborator: the loaded value enters through `init`
and `save_high_score` is fire-and-forget, so the in-memory `high_score`
field models the persisted scalar. -/
structure ScoreManager where
  distance : ℕ
  time_survived : ℚ
  high_score : ℤ
  collectibles : ℕ
  bonus_points : ℤ
deriving DecidableEq

/-- `ScoreManager.__init__` (lines 63–69); `loaded` is what
`load_high_score` returned (0 on any read/parse failure). -/
def ScoreManager.init (loaded : ℤ) : ScoreManager :=
  { distance := 0
    time_survived := 0
    high_score := loaded
    collectibles := 0
    bonus_points := 0 }

/-- `ScoreManager.update` (lines 90–93): `distance = frame_count // 2`,
`time_survived = frame_count * 0.05`. -/
def ScoreManager.update (s : ScoreManager) (frame_count : ℕ) : ScoreManager :=
  { s with
      distance := frame_count / 2
      time_survived := (frame_count : ℚ) * 0.05 }

/-- `ScoreManager.add_collectible` (lines 95–98), default `points = 50`. -/
def ScoreManager.add_collectible (s : ScoreManager) (points : ℤ := 50) :
    ScoreManager :=
  { s with
      collectibles := s.collectibles + 1
      bonus_points := s.bonus_points + points }

/-- `ScoreManager.get_score` (lines 100–102):
`int(distance + time_survived * 10 + bonus_points)`. -/
def ScoreManager.get_score (s : ScoreManager) : ℤ :=
  pytrunc ((s.distance : ℚ) + s.time_survived * 10 + (s.bonus_points : ℚ))

/-- `ScoreManager.check_high_score` (lines 104–111); the paired Boolean is
the return value, the manager carries the (possibly overwritten)
high score. -/
def ScoreManager.check_high_score (s : ScoreManager) : Bool × ScoreManager :=
  if s.get_score > s.high_score then
    (true, { s with high_score := s.get_score })
  else
    (false, s)

/-- Any sequence of calls into the score ledger, for the monotonicity part
of claim C8. -/
inductive ScoreOp where
  | upd : ℕ → ScoreOp
  | add : ℤ → ScoreOp
  | chk : ScoreOp
deriving DecidableEq

def applyScoreOp (s : ScoreManager) : ScoreOp → ScoreManager
  | ScoreOp.upd t => s.update t
  | ScoreOp.add p => s.add_collectible p
  | ScoreOp.chk => (s.check_high_score).2

def runScoreOps (s : ScoreManager) (ops : List ScoreOp) : ScoreManager :=
  ops.foldl applyScoreOp s

/-- `Collectible` (flight_sim.py lines 114–128). -/
structure Collectible where
  x : ℤ
  y : ℤ
  value : ℤ
  ch : Char
  active : Bool
deriving DecidableEq

/-- `Collectible.__init__` (lines 115–120), default `value = 50`,
`char = '*'`, `active = True`. -/
def Collectible.make (x y : ℤ) (value : ℤ := 50) : Collectible :=
  { x := x, y := y, value := value, ch := '*', active := true }

/-- `Collectible.scroll` (lines 122–124): `x -= 1`. -/
def Collectible.scroll (c : Collectible) : Collectible :=
  { c with x := c.x - 1 }

/-- `Collectible.is_off_screen` (lines 126–128): `x < 0`. -/
def Collectible.is_off_screen (c : Collectible) : Bool :=
  decide (c.x < 0)

/-- `random.randint(a, b)`: an integer in `[a, b]`, or a `ValueError`
(modelled by `none`) when `a > b`; `draw` stands for the sampled value. -/
def randint (a b draw : ℤ) : Option ℤ :=
  if a ≤ b then some draw else none

/-- `CollectibleManager` (flight_sim.py lines 131–168). -/
structure CollectibleManager where
  width : ℕ
  height : ℤ
  collectibles : List Collectible
  spawn_interval : ℤ
  last_spawn : ℤ
deriving DecidableEq

/-- `CollectibleManager.__init__` (lines 132–137). -/
def CollectibleManager.init (width : ℕ) (height : ℤ) : CollectibleManager :=
  { width := width
    height := height
    collectibles := []
    spawn_interval := 100
    last_spawn := 0 }

/-- `CollectibleManager.spawn` (lines 153–158):
`y = random.randint(5, height - 10)`, `x = width - 1`, then append; `none`
models the `ValueError` that `randint` raises when `5 > height - 10`. -/
def CollectibleManager.spawn (m : CollectibleManager) (draw : ℤ) :
    Option CollectibleManager :=
  match randint 5 (m.height - 10) draw with
  | some y =>
      some { m with
        collectibles := m.collectibles
          ++ [Collectible.make ((m.width : ℤ) - 1) y] }
  | none => none

/-- Lines 141–146 of `CollectibleManager.update`: scroll every collectible,
then keep only the on-screen, still-active ones. -/
def keptAfterScroll (l : List Collectible) : List Collectible :=
  (l.map Collectible.scroll).filter
    (fun item => !item.is_off_screen && item.active)

/-- `CollectibleManager.update` (lines 139–151): scroll every collectible,
drop the off-screen and inactive ones, then spawn when
`frame_count - last_spawn >= spawn_interval` and record the spawn frame. -/
def CollectibleManager.update (m : CollectibleManager) (frame_count : ℕ)
    (draw : ℤ) : Option CollectibleManager :=
  let kept := keptAfterScroll m.collectibles
  let m1 := { m with collectibles := kept }
  if (frame_count : ℤ) - m1.last_spawn ≥ m1.spawn_interval then
    match m1.spawn draw with
    | some m2 => some { m2 with last_spawn := (frame_count : ℤ) }
    | none => none
  else
    some m1

/-- `CollectibleManager.check_collision` (lines 160–168), on the bare list:
scan in storage order; the first active item within the
`|x - px| ≤ 2 ∧ |y - py| ≤ 1` box is deactivated and its value returned,
else return 0; the scan stops at the first hit, as the source `return`
does. -/
def checkCollisionList : List Collectible → ℤ → ℤ → ℤ × List Collectible
  | [], _, _ => (0, [])
  | item :: rest, plane_x, plane_y =>
      if item.active &&
          (decide (|item.x - plane_x| ≤ 2) && decide (|item.y - plane_y| ≤ 1)) then
        (item.value, { item with active := false } :: rest)
      else
        let r := checkCollisionList rest plane_x plane_y
        (r.1, item :: r.2)

/-- `CollectibleManager.check_collision` lifted to the manager. -/
def CollectibleManager.check_collision (m : CollectibleManager)
    (plane_x plane_y : ℤ) : ℤ × CollectibleManager :=
  let r := checkCollisionList m.collectibles plane_x plane_y
  (r.1, { m with collectibles := r.2 })

/-- The scan predicate of `check_collision`: active and within the box. -/
def collides (plane_x plane_y : ℤ) (item : Collectible) : Bool :=
  item.active &&
    (decide (|item.x - plane_x| ≤ 2) && decide (|item.y - plane_y| ≤ 1))

/-- The per-tick external inputs of the main loop: the pitch derived from
the pressed key, and the two `randint` draws a tick may consume (terrain
shift, collectible spawn). -/
structure TickInput where
  pitch : ℤ
  ground_draw : ℤ
  spawn_draw : ℤ
deriving DecidableEq

/-- The mutable state of `main` (flight_sim.py lines 180–298): the four
components plus the loop-local variables.  `hs_checks` is an observation
counter recording how many times `score_manager.check_high_score()` has
been called; it is written exactly where the source calls it (line 233)
and read by nothing, so it does not influence any transition. -/
structure GameState where
  plane : SimplePlane
  ground : SimpleGround
  score_manager : ScoreManager
  collectible_manager : CollectibleManager
  height : ℤ
  width : ℕ
  frame : ℕ
  crashed : Bool
  last_collect_frame : ℤ
  hs_checks : ℕ
deriving DecidableEq

/-- The state `main` builds before its loop (lines 185–195); `height` and
`width` come from `getmaxyx()`, `init_draws` are the ground's construction
draws and `loaded` the persisted high score. -/
def initGameState (height : ℤ) (width : ℕ) (init_draws : ℕ → ℤ)
    (loaded : ℤ) : GameState :=
  { plane := SimplePlane.init height
    ground := SimpleGround.init width init_draws
    score_manager := ScoreManager.init loaded
    collectible_manager := CollectibleManager.init width height
    height := height
    width := width
    frame := 0
    crashed := false
    last_collect_frame := -10
    hs_checks := 0 }

/-- Line 211: the plane after this tick's physics update. -/
def GameState.updatedPlane (s : GameState) (i : TickInput) : SimplePlane :=
  s.plane.update i.pitch

/-- Lines 212–213: the ground after this tick (scrolled on even frames). -/
def GameState.updatedGround (s : GameState) (i : TickInput) : SimpleGround :=
  if s.frame % 2 = 0 then s.ground.scroll i.ground_draw else s.ground

/-- Line 219: the plane's fixed screen column `width // 3`. -/
def GameState.plane_col (s : GameState) : ℕ := s.width / 3

/-- Lines 220–231: the terrain-collision test of the loop,
`plane_y >= ground_top_y - 1` with `plane_y = int(plane.altitude)` and
`ground_top_y = height - ground.get_height(plane_x)`, both taken after
this tick's updates. -/
def GameState.crashCondition (s : GameState) (i : TickInput) : Prop :=
  pytrunc (s.updatedPlane i).altitude ≥
    s.height - (s.updatedGround i).get_height ((s.plane_col : ℕ) : ℤ) - 1

instance (s : GameState) (i : TickInput) : Decidable (s.crashCondition i) :=
  inferInstanceAs (Decidable (_ ≥ _))

/-- One iteration of the main loop (lines 197–297), minus rendering and
the quit branch.  When `crashed` holds, the update and collision blocks
(lines 210–233) are skipped and only the frame counter advances.  `none`
models the uncaught `ValueError` a spawn with an inverted band raises. -/
def stepSim (s : GameState) (i : TickInput) : Option GameState :=
  if s.crashed then
    some { s with frame := s.frame + 1 }
  else
    let plane := s.updatedPlane i
    let ground := s.updatedGround i
    let score1 := s.score_manager.update s.frame
    match s.collectible_manager.update s.frame i.spawn_draw with
    | none => none
    | some cm =>
        let plane_y := pytrunc plane.altitude
        let r := cm.check_collision ((s.plane_col : ℕ) : ℤ) plane_y
        let score2 := if r.1 > 0 then score1.add_collectible r.1 else score1
        let lcf := if r.1 > 0 then (s.frame : ℤ) else s.last_collect_frame
        if plane_y ≥ s.height - ground.get_height ((s.plane_col : ℕ) : ℤ) - 1 then
          some { s with
            plane := plane
            ground := ground
            score_manager := (score2.check_high_score).2
            collectible_manager := r.2
            crashed := true
            last_collect_frame := lcf
            frame := s.frame + 1
            hs_checks := s.hs_checks + 1 }
        else
          some { s with
            plane := plane
            ground := ground
            score_manager := score2
            collectible_manager := r.2
            crashed := false
            last_collect_frame := lcf
            frame := s.frame + 1 }

theorem pytrunc_of_nonneg (q : ℚ) (h : 0 ≤ q) : pytrunc q = ⌊q⌋ := by
  rw [pytrunc, if_neg (by linarith)]

theorem SimplePlane.update_screen_height (p : SimplePlane) (pitch : ℤ) :
    (p.update pitch).screen_height = p.screen_height := rfl

theorem runPlane_screen_height (h : ℤ) (ps : List ℤ) :
    (runPlane h ps).screen_height = h := by
  suffices H : ∀ (l : List ℤ) (p : SimplePlane),
      (l.foldl SimplePlane.update p).screen_height = p.screen_height by
    exact H ps (SimplePlane.init h)
  intro l
  induction l with
  | nil => intro p; rfl
  | cons q l ih => intro p; rw [List.foldl_cons, ih]; rfl

theorem SimplePlane.update_altitude_bounds (p : SimplePlane) (pitch : ℤ)
    (hh : 5 ≤ p.screen_height) :
    2 ≤ (p.update pitch).altitude ∧
      (p.update pitch).altitude ≤ (p.screen_height : ℚ) - 3 := by
  have hh' : (5 : ℚ) ≤ (p.screen_height : ℚ) := by exact_mod_cast hh
  simp only [SimplePlane.update]
  split_ifs <;> constructor <;> linarith

theorem SimplePlane.update_altitude_eq (p : SimplePlane) (pitch : ℤ) :
    (p.update pitch).altitude =
      min ((p.screen_height : ℚ) - 3)
        (max 2 (p.altitude - (p.velocity + (pitch : ℚ) * 1.0 - 0.3) * 0.9)) := by
  simp only [SimplePlane.update]
  by_cases h1 : p.altitude - (p.velocity + (pitch : ℚ) * 1.0 - 0.3) * 0.9 < 2
  · rw [if_pos h1, max_eq_left (le_of_lt h1)]
    by_cases h2 : (2 : ℚ) > (p.screen_height : ℚ) - 3
    · rw [if_pos h2, min_eq_left (le_of_lt h2)]
    · rw [if_neg h2, min_eq_right (le_of_not_lt h2)]
  · rw [if_neg h1, max_eq_right (le_of_not_lt h1)]
    by_cases h2 : p.altitude - (p.velocity + (pitch : ℚ) * 1.0 - 0.3) * 0.9 >
        (p.screen_height : ℚ) - 3
    · rw [if_pos h2, min_eq_left (le_of_lt h2)]
    · rw [if_neg h2, min_eq_right (le_of_not_lt h2)]

theorem SimplePlane.update_velocity_eq (p : SimplePlane) (pitch : ℤ) :
    (p.update pitch).velocity =
      (if 2 ≤ p.altitude - (p.velocity + (pitch : ℚ) * 1.0 - 0.3) * 0.9 ∧
          p.altitude - (p.velocity + (pitch : ℚ) * 1.0 - 0.3) * 0.9 ≤
            (p.screen_height : ℚ) - 3 then
        (p.velocity + (pitch : ℚ) * 1.0 - 0.3) * 0.9 else 0) := by
  simp only [SimplePlane.update]
  by_cases h1 : p.altitude - (p.velocity + (pitch : ℚ) * 1.0 - 0.3) * 0.9 < 2
  · have hneg : ¬ (2 ≤ p.altitude - (p.velocity + (pitch : ℚ) * 1.0 - 0.3) * 0.9 ∧
        p.altitude - (p.velocity + (pitch : ℚ) * 1.0 - 0.3) * 0.9 ≤
          (p.screen_height : ℚ) - 3) :=
      fun hc => absurd hc.1 (not_le.mpr h1)
    rw [if_pos h1, if_pos h1, if_neg hneg]
    split_ifs <;> rfl
  · rw [if_neg h1, if_neg h1]
    by_cases h2 : p.altitude - (p.velocity + (pitch : ℚ) * 1.0 - 0.3) * 0.9 >
        (p.screen_height : ℚ) - 3
    · have hneg : ¬ (2 ≤ p.altitude - (p.velocity + (pitch : ℚ) * 1.0 - 0.3) * 0.9 ∧
          p.altitude - (p.velocity + (pitch : ℚ) * 1.0 - 0.3) * 0.9 ≤
            (p.screen_height : ℚ) - 3) :=
        fun hc => absurd hc.2 (not_le.mpr h2)
      rw [if_pos h2, if_neg hneg]
    · rw [if_neg h2, if_pos ⟨le_of_not_lt h1, le_of_not_lt h2⟩]

/-- Claim C1: one `update` call multiplies the post-force velocity by the
damping factor, giving `v' = (v + p*1.0 - 0.3) * 0.9`, integrates
`altitude := a - v'`, then clamps the altitude into `[2, h-3]` (lower clamp
first, as in the source), zeroing the velocity exactly when the altitude
left that band; from `a = 10, v = 0, h = 20, p = 0` a single update yields
velocity `-0.27` and altitude `10.27`. -/
theorem C1_plane_update_step (a v : ℚ) (h p : ℤ)
    (_hp : p = -1 ∨ p = 0 ∨ p = 1) :
    ((SimplePlane.update ⟨a, v, h⟩ p).altitude =
        min ((h : ℚ) - 3) (max 2 (a - (v + (p : ℚ) * 1.0 - 0.3) * 0.9)) ∧
      (SimplePlane.update ⟨a, v, h⟩ p).velocity =
        (if 2 ≤ a - (v + (p : ℚ) * 1.0 - 0.3) * 0.9 ∧
            a - (v + (p : ℚ) * 1.0 - 0.3) * 0.9 ≤ (h : ℚ) - 3 then
          (v + (p : ℚ) * 1.0 - 0.3) * 0.9 else 0)) ∧
    (SimplePlane.update ⟨10, 0, 20⟩ 0).velocity = -27/100 ∧
    (SimplePlane.update ⟨10, 0, 20⟩ 0).altitude = 1027/100 := by
  exact ⟨⟨SimplePlane.update_altitude_eq ⟨a, v, h⟩ p,
      SimplePlane.update_velocity_eq ⟨a, v, h⟩ p⟩,
    by norm_num [SimplePlane.update], by norm_num [SimplePlane.update]⟩

theorem C1_plane_update_step_witness :
    ((SimplePlane.update ⟨10, 0, 20⟩ 0).altitude =
        min ((20 : ℚ) - 3) (max 2 (10 - (0 + ((0 : ℤ) : ℚ) * 1.0 - 0.3) * 0.9)) ∧
      (SimplePlane.update ⟨10, 0, 20⟩ 0).velocity =
        (if 2 ≤ 10 - (0 + ((0 : ℤ) : ℚ) * 1.0 - 0.3) * 0.9 ∧
            10 - (0 + ((0 : ℤ) : ℚ) * 1.0 - 0.3) * 0.9 ≤ (20 : ℚ) - 3 then
          (0 + ((0 : ℤ) : ℚ) * 1.0 - 0.3) * 0.9 else 0)) ∧
    (SimplePlane.update ⟨10, 0, 20⟩ 0).velocity = -27/100 ∧
    (SimplePlane.update ⟨10, 0, 20⟩ 0).altitude = 1027/100 :=
  C1_plane_update_step 10 0 20 0 (Or.inr (Or.inl rfl))

/-- Claim C2 fails as stated: it quantifies over every screen height, but at
`screen_height = 4` the freshly constructed plane has altitude
`4 // 2 = 2`, which is above the claimed upper bound `4 - 3 = 1`. -/
theorem C2_counterexample :
    ¬ (2 ≤ (SimplePlane.init 4).altitude ∧
        (SimplePlane.init 4).altitude ≤ ((4 : ℤ) : ℚ) - 3) := by
  have h4 : (4 : ℤ).fdiv 2 = 2 := by decide
  simp only [SimplePlane.init, h4]
  norm_num

/-- Claim C2 (amended: screen heights of at least 5): for every
`screen_height ≥ 5` and every sequence of pitch inputs in `{-1,0,1}`, the
altitude stays in `[2, screen_height - 3]` at every point of the run,
including the freshly constructed plane (altitude `screen_height // 2`). -/
theorem C2_altitude_invariant (h : ℤ) (hh : 5 ≤ h) (ps : List ℤ)
    (hps : ∀ p ∈ ps, p = -1 ∨ p = 0 ∨ p = 1) :
    2 ≤ (runPlane h ps).altitude ∧ (runPlane h ps).altitude ≤ (h : ℚ) - 3 := by
  rcases List.eq_nil_or_concat ps with rfl | ⟨qs, q, rfl⟩
  · have h2 : (2 : ℤ) ≤ h.fdiv 2 := by
      rw [Int.fdiv_eq_ediv _ (by norm_num)]; omega
    have h3 : h.fdiv 2 ≤ h - 3 := by
      rw [Int.fdiv_eq_ediv _ (by norm_num)]; omega
    have hbase : runPlane h [] = SimplePlane.init h := rfl
    rw [hbase]
    constructor
    · show (2 : ℚ) ≤ ((h.fdiv 2 : ℤ) : ℚ)
      exact_mod_cast h2
    · show ((h.fdiv 2 : ℤ) : ℚ) ≤ (h : ℚ) - 3
      have : ((h.fdiv 2 : ℤ) : ℚ) ≤ ((h - 3 : ℤ) : ℚ) := by exact_mod_cast h3
      push_cast at this ⊢
      linarith
  · rw [List.concat_eq_append] at hps ⊢
    have hrw : runPlane h (qs ++ [q]) = (runPlane h qs).update q := by
      simp [runPlane, List.foldl_append]
    rw [hrw]
    have hsh : (runPlane h qs).screen_height = h := runPlane_screen_height h qs
    have := SimplePlane.update_altitude_bounds (runPlane h qs) q (by rw [hsh]; exact hh)
    rw [hsh] at this
    exact this

theorem C2_altitude_invariant_witness :
    2 ≤ (runPlane 20 [1, 0, -1]).altitude ∧
      (runPlane 20 [1, 0, -1]).altitude ≤ ((20 : ℤ) : ℚ) - 3 :=
  C2_altitude_invariant 20 (by decide) [1, 0, -1] (by decide)

theorem scroll_heights_length (g : SimpleGround) (d : ℤ)
    (h : 1 ≤ g.heights.length) :
    (g.scroll d).heights.length = g.heights.length := by
  rw [SimpleGround.scroll]
  split_ifs with h2
  · simp only [List.length_append, List.length_tail, List.length_cons,
      List.length_nil]
    omega
  · rfl

theorem scroll_heights_mem (g : SimpleGround) (d : ℤ) (x : ℤ)
    (hx : x ∈ (g.scroll d).heights) : x ∈ g.heights ∨ x = d := by
  rw [SimpleGround.scroll] at hx
  split_ifs at hx with h2
  · simp only [List.mem_append, List.mem_singleton] at hx
    rcases hx with hx | hx
    · exact Or.inl (List.mem_of_mem_tail hx)
    · exact Or.inr hx
  · exact Or.inl hx

theorem iterScroll_heights_length (draws : ℕ → ℤ) (n : ℕ) (g : SimpleGround)
    (h : 1 ≤ g.heights.length) :
    (iterScroll draws n g).heights.length = g.heights.length := by
  induction n with
  | zero => rfl
  | succ n ih =>
      rw [iterScroll, scroll_heights_length _ _ (by omega)]
      exact ih

/-- Claim C4: for every width `w ≥ 1` and draws within `randint`'s
documented range `[3, 8]`, the heights row has length exactly `w` and
every entry lies in `[3, 8]`, after construction and after any number of
`scroll` calls. -/
theorem C4_terrain_invariant (w : ℕ) (hw : 1 ≤ w)
    (init_draws scroll_draws : ℕ → ℤ)
    (hinit : ∀ n, 3 ≤ init_draws n ∧ init_draws n ≤ 8)
    (hscroll : ∀ n, 3 ≤ scroll_draws n ∧ scroll_draws n ≤ 8) (n : ℕ) :
    (iterScroll scroll_draws n (SimpleGround.init w init_draws)).heights.length = w ∧
    ∀ x ∈ (iterScroll scroll_draws n (SimpleGround.init w init_draws)).heights,
      3 ≤ x ∧ x ≤ 8 := by
  have hlen0 : (SimpleGround.init w init_draws).heights.length = w := by
    simp [SimpleGround.init]
  constructor
  · rw [iterScroll_heights_length _ _ _ (by omega)]; exact hlen0
  · induction n with
    | zero =>
        intro x hx
        simp only [iterScroll, SimpleGround.init, List.mem_map,
          List.mem_range] at hx
        obtain ⟨i, _, rfl⟩ := hx
        exact hinit i
    | succ n ih =>
        intro x hx
        rcases scroll_heights_mem _ _ _ hx with hx' | rfl
        · exact ih x hx'
        · exact hscroll n

theorem C4_terrain_invariant_witness :
    (iterScroll (fun _ => 4) 2 (SimpleGround.init 3 (fun _ => 5))).heights.length = 3 ∧
    ∀ x ∈ (iterScroll (fun _ => 4) 2 (SimpleGround.init 3 (fun _ => 5))).heights,
      3 ≤ x ∧ x ≤ 8 :=
  C4_terrain_invariant 3 (by decide) (fun _ => 5) (fun _ => 4)
    (by intro n; exact ⟨by norm_num, by norm_num⟩)
    (by intro n; exact ⟨by norm_num, by norm_num⟩) 2

/-- Claim C3 fails as stated: over the first 2 game ticks the loop invokes
`scroll` once (at frame 0), which only bumps `offset`, so the terrain row
is still the initial one and no one-column shift has happened. -/
theorem C3_counterexample :
    (runGround (fun _ => 3) 2 ⟨4, [3, 4, 5, 6], 0⟩).heights = [3, 4, 5, 6] ∧
    [(3 : ℤ), 4, 5, 6] ≠ List.tail [(3 : ℤ), 4, 5, 6] ++ [3] := by
  exact ⟨rfl, by decide⟩

theorem runGround_four_step (draws : ℕ → ℤ) (g : SimpleGround) (k : ℕ)
    (h0 : (runGround draws (4 * k) g).offset = 0) :
    runGround draws (4 * k + 4) g =
      { runGround draws (4 * k) g with
          offset := 0
          heights := (runGround draws (4 * k) g).heights.tail
            ++ [draws (4 * k + 2)] } := by
  have hm0 : (4 * k) % 2 = 0 := by omega
  have hm2 : (4 * k + 2) % 2 = 0 := by omega
  have e4 : runGround draws (4 * k + 4) g
      = tickGround (4 * k + 3) (tickGround (4 * k + 2) (tickGround (4 * k + 1)
          (tickGround (4 * k) (runGround draws (4 * k) g) (draws (4 * k)))
          (draws (4 * k + 1))) (draws (4 * k + 2))) (draws (4 * k + 3)) := rfl
  have hstep1 : SimpleGround.scroll (runGround draws (4 * k) g) (draws (4 * k))
      = { runGround draws (4 * k) g with offset := 1 } := by
    simp only [SimpleGround.scroll, h0]
    norm_num
  have hstep2 : SimpleGround.scroll
        { runGround draws (4 * k) g with offset := 1 } (draws (4 * k + 2))
      = { runGround draws (4 * k) g with
            offset := 0
            heights := (runGround draws (4 * k) g).heights.tail
              ++ [draws (4 * k + 2)] } := by
    simp only [SimpleGround.scroll]
    norm_num
  rw [e4]
  simp only [tickGround]
  rw [if_neg (show ¬ (4 * k + 3) % 2 = 0 by omega), if_pos hm2,
    if_neg (show ¬ (4 * k + 1) % 2 = 0 by omega), if_pos hm0, hstep1, hstep2]

/-- Claim C3, amended: in the composed loop the terrain shifts one column
per 4 game ticks, not per 2 — the controller only calls `scroll` on even
frames, and the generator only shifts on every second `scroll` call.
Starting from a freshly built ground (`offset = 0`), each block of 4 ticks
performs exactly one drop-first/append-last shift (at its third frame), and
the scroll counter returns to 0 after every block. -/
theorem C3_terrain_shift_cadence (draws : ℕ → ℤ) (g : SimpleGround)
    (hoff : g.offset = 0) (k : ℕ) :
    (runGround draws (4 * k) g).offset = 0 ∧
    (runGround draws (4 * k + 4) g).heights =
      (runGround draws (4 * k) g).heights.tail ++ [draws (4 * k + 2)] := by
  have hoffs : ∀ m, (runGround draws (4 * m) g).offset = 0 := by
    intro m
    induction m with
    | zero => exact hoff
    | succ m ih =>
        have h4 : 4 * (m + 1) = 4 * m + 4 := by ring
        rw [h4, runGround_four_step draws g m ih]
  exact ⟨hoffs k, by rw [runGround_four_step draws g k (hoffs k)]⟩

theorem C3_terrain_shift_cadence_witness :
    (runGround (fun _ => 7) (4 * 1) ⟨2, [3, 4], 0⟩).offset = 0 ∧
    (runGround (fun _ => 7) (4 * 1 + 4) ⟨2, [3, 4], 0⟩).heights =
      (runGround (fun _ => 7) (4 * 1) ⟨2, [3, 4], 0⟩).heights.tail ++ [7] :=
  C3_terrain_shift_cadence (fun _ => 7) ⟨2, [3, 4], 0⟩ rfl 1

/-- Claim C10: for every width `w ≥ 1`, the plane column `w // 3` is a
valid index (`0 ≤ w/3 < w`), the heights row keeps length `w` under any
number of `scroll` calls, and the loop's `get_height (w // 3)` call takes
the in-bounds branch — its value is the indexed entry, with the `5`
fallback unreachable. -/
theorem C10_get_height_in_bounds (w : ℕ) (hw : 1 ≤ w)
    (init_draws scroll_draws : ℕ → ℤ) (n : ℕ) :
    (iterScroll scroll_draws n (SimpleGround.init w init_draws)).heights.length = w ∧
    w / 3 < w ∧
    (iterScroll scroll_draws n (SimpleGround.init w init_draws)).get_height
        ((w / 3 : ℕ) : ℤ) =
      (iterScroll scroll_draws n (SimpleGround.init w init_draws)).heights.getD
        (w / 3) 0 := by
  have hlen : (iterScroll scroll_draws n (SimpleGround.init w init_draws)).heights.length = w := by
    rw [iterScroll_heights_length _ _ _ (by simp [SimpleGround.init]; omega)]
    simp [SimpleGround.init]
  have hdiv : w / 3 < w := Nat.div_lt_self (by omega) (by norm_num)
  refine ⟨hlen, hdiv, ?_⟩
  rw [SimpleGround.get_height, if_pos ⟨by positivity, by rw [hlen]; exact_mod_cast hdiv⟩]
  have hx : (((w / 3 : ℕ) : ℤ)).toNat = w / 3 := by omega
  rw [hx]

theorem C10_get_height_in_bounds_witness :
    (iterScroll (fun _ => 4) 3 (SimpleGround.init 5 (fun _ => 6))).heights.length = 5 ∧
    5 / 3 < 5 ∧
    (iterScroll (fun _ => 4) 3 (SimpleGround.init 5 (fun _ => 6))).get_height
        ((5 / 3 : ℕ) : ℤ) =
      (iterScroll (fun _ => 4) 3 (SimpleGround.init 5 (fun _ => 6))).heights.getD
        (5 / 3) 0 :=
  C10_get_height_in_bounds 5 (by decide) (fun _ => 6) (fun _ => 4) 3

/-- Claim C7: `update t` sets `distance = t // 2` and
`time_survived = t * 0.05`, and `get_score` then returns
`floor(distance + time_survived * 10 + bonus_points)` (truncation and
floor agree because the value is nonnegative when the accumulated bonus
is); with `t = 200` and no bonuses: distance 100, time 10.0, score 200. -/
theorem C7_score_computation (s : ScoreManager) (t : ℕ)
    (hb : 0 ≤ s.bonus_points) :
    (s.update t).distance = t / 2 ∧
    (s.update t).time_survived = (t : ℚ) * 0.05 ∧
    (s.update t).get_score =
      ⌊(((s.update t).distance : ℚ) + (s.update t).time_survived * 10 +
        ((s.update t).bonus_points : ℚ))⌋ ∧
    ((ScoreManager.init 0).update 200).distance = 100 ∧
    ((ScoreManager.init 0).update 200).time_survived = 10 ∧
    ((ScoreManager.init 0).update 200).get_score = 200 := by
  refine ⟨rfl, rfl, ?_, by norm_num [ScoreManager.update, ScoreManager.init],
    by norm_num [ScoreManager.update, ScoreManager.init], ?_⟩
  · apply pytrunc_of_nonneg
    have h1 : (0 : ℚ) ≤ (((s.update t).distance : ℚ)) := by positivity
    have h2 : (0 : ℚ) ≤ (s.update t).time_survived := by
      show (0 : ℚ) ≤ (t : ℚ) * 0.05
      positivity
    have h3 : (0 : ℚ) ≤ ((s.update t).bonus_points : ℚ) := by
      show (0 : ℚ) ≤ (s.bonus_points : ℚ)
      exact_mod_cast hb
    linarith
  · show pytrunc (((100 : ℕ) : ℚ) + (200 : ℚ) * 0.05 * 10 + ((0 : ℤ) : ℚ)) = 200
    rw [pytrunc_of_nonneg _ (by norm_num)]
    norm_num [Int.floor_eq_iff]

theorem C7_score_computation_witness :
    ((ScoreManager.init 0).update 200).distance = 200 / 2 ∧
    ((ScoreManager.init 0).update 200).time_survived = ((200 : ℕ) : ℚ) * 0.05 ∧
    ((ScoreManager.init 0).update 200).get_score =
      ⌊((((ScoreManager.init 0).update 200).distance : ℚ) +
        ((ScoreManager.init 0).update 200).time_survived * 10 +
        (((ScoreManager.init 0).update 200).bonus_points : ℚ))⌋ ∧
    ((ScoreManager.init 0).update 200).distance = 100 ∧
    ((ScoreManager.init 0).update 200).time_survived = 10 ∧
    ((ScoreManager.init 0).update 200).get_score = 200 :=
  C7_score_computation (ScoreManager.init 0) 200 (by decide)

/-- Claim C8: `check_high_score` returns true exactly when the current
score strictly exceeds the stored high score; the stored high score
becomes `max high_score score` (overwritten with the score on success,
untouched otherwise, every other field untouched); hence the high score is
monotonically non-decreasing across any sequence of ledger calls. -/
theorem C8_high_score (s : ScoreManager) (ops : List ScoreOp) :
    ((s.check_high_score).1 = true ↔ s.get_score > s.high_score) ∧
    (s.check_high_score).2 =
      { s with high_score := max s.high_score s.get_score } ∧
    s.high_score ≤ (runScoreOps s ops).high_score := by
  refine ⟨?_, ?_, ?_⟩
  · rw [ScoreManager.check_high_score]
    split_ifs with h
    · simpa using h
    · simpa using h
  · rw [ScoreManager.check_high_score]
    split_ifs with h
    · rw [max_eq_right (le_of_lt h)]
    · rw [max_eq_left (le_of_not_lt h)]
  · have key : ∀ (l : List ScoreOp) (t : ScoreManager),
        t.high_score ≤ (runScoreOps t l).high_score := by
      intro l
      induction l with
      | nil => intro t; exact le_refl _
      | cons op l ih =>
          intro t
          refine le_trans ?_ (ih (applyScoreOp t op))
          cases op with
          | upd n => exact le_refl _
          | add p => exact le_refl _
          | chk =>
              show t.high_score ≤ ((t.check_high_score).2).high_score
              rw [ScoreManager.check_high_score]
              split_ifs with h
              · exact le_of_lt h
              · exact le_refl _
    exact key ops s

theorem C8_high_score_witness :
    (((ScoreManager.init 150).update 200).check_high_score).1 = true ∧
    (((ScoreManager.init 150).update 200).check_high_score).2.high_score = 200 ∧
    ((ScoreManager.init 150).update 200).high_score ≤
      (runScoreOps ((ScoreManager.init 150).update 200)
        [ScoreOp.chk, ScoreOp.upd 10, ScoreOp.chk]).high_score := by
  have h := C8_high_score ((ScoreManager.init 150).update 200)
    [ScoreOp.chk, ScoreOp.upd 10, ScoreOp.chk]
  have hscore : ((ScoreManager.init 150).update 200).get_score = 200 := by
    show pytrunc (((100 : ℕ) : ℚ) + (200 : ℚ) * 0.05 * 10 + ((0 : ℤ) : ℚ)) = 200
    rw [pytrunc_of_nonneg _ (by norm_num)]
    norm_num [Int.floor_eq_iff]
  refine ⟨h.1.mpr ?_, ?_, h.2.2⟩
  · rw [hscore]; norm_num [ScoreManager.init, ScoreManager.update]
  · rw [h.2.1]
    show max ((ScoreManager.init 150).high_score) _ = 200
    rw [hscore]
    norm_num [ScoreManager.init]

theorem checkCollisionList_no_hit (plane_x plane_y : ℤ) :
    ∀ l : List Collectible, (∀ j ∈ l, collides plane_x plane_y j = false) →
      checkCollisionList l plane_x plane_y = (0, l) := by
  intro l
  induction l with
  | nil => intro _; rfl
  | cons item rest ih =>
      intro hl
      rw [checkCollisionList]
      rw [show (item.active &&
          (decide (|item.x - plane_x| ≤ 2) && decide (|item.y - plane_y| ≤ 1)))
          = collides plane_x plane_y item from rfl,
        hl item (List.mem_cons_self item rest)]
      simp only [Bool.false_eq_true, if_false]
      rw [ih (fun j hj => hl j (List.mem_cons_of_mem item hj))]

/-- Claim C6: `check_collision` scans in storage (spawn/append) order; the
first active collectible within `|x-px| ≤ 2 ∧ |y-py| ≤ 1` is deactivated
and its value returned, all other entries are left unchanged; with no hit
it returns 0 and changes nothing.  In particular when several overlapping
collectibles match, only the earliest-stored one is awarded. -/
theorem C6_check_collision (plane_x plane_y : ℤ)
    (l₁ l₂ : List Collectible) (item : Collectible)
    (h₁ : ∀ j ∈ l₁, collides plane_x plane_y j = false)
    (h₂ : collides plane_x plane_y item = true) :
    checkCollisionList (l₁ ++ item :: l₂) plane_x plane_y =
      (item.value, l₁ ++ { item with active := false } :: l₂) ∧
    ∀ l : List Collectible, (∀ j ∈ l, collides plane_x plane_y j = false) →
      checkCollisionList l plane_x plane_y = (0, l) := by
  refine ⟨?_, checkCollisionList_no_hit plane_x plane_y⟩
  induction l₁ with
  | nil =>
      simp only [List.nil_append]
      rw [checkCollisionList,
        show (item.active && (decide (|item.x - plane_x| ≤ 2) &&
          decide (|item.y - plane_y| ≤ 1))) = collides plane_x plane_y item
          from rfl, h₂]
      simp
  | cons j rest ih =>
      have hj : collides plane_x plane_y j = false :=
        h₁ j (List.mem_cons_self j rest)
      have hrest : ∀ i ∈ rest, collides plane_x plane_y i = false :=
        fun i hi => h₁ i (List.mem_cons_of_mem j hi)
      simp only [List.cons_append]
      rw [checkCollisionList,
        show (j.active && (decide (|j.x - plane_x| ≤ 2) &&
          decide (|j.y - plane_y| ≤ 1))) = collides plane_x plane_y j
          from rfl, hj]
      simp only [Bool.false_eq_true, if_false]
      rw [ih hrest]

theorem C6_check_collision_witness :
    checkCollisionList
        ([⟨30, 5, 50, '*', true⟩] ++ (⟨9, 5, 50, '*', true⟩ : Collectible)
          :: [⟨10, 5, 70, '*', true⟩]) 10 5 =
      (50, [⟨30, 5, 50, '*', true⟩] ++ (⟨9, 5, 50, '*', false⟩ : Collectible)
        :: [⟨10, 5, 70, '*', true⟩]) ∧
    checkCollisionList [⟨30, 5, 50, '*', true⟩] 10 5 =
      (0, [⟨30, 5, 50, '*', true⟩]) := by
  have h := C6_check_collision 10 5 [⟨30, 5, 50, '*', true⟩]
    [⟨10, 5, 70, '*', true⟩] ⟨9, 5, 50, '*', true⟩
    (by intro j hj; simp only [List.mem_singleton] at hj; subst hj; decide)
    (by decide)
  exact ⟨h.1, h.2 [⟨30, 5, 50, '*', true⟩]
    (by intro j hj; simp only [List.mem_singleton] at hj; subst hj; decide)⟩

/-- Claim C9 fails as stated: with `height = 14` the spawn band
`[5, 14 - 10] = [5, 4]` is inverted, and a triggered update does not fall
back to skipping or clamping — `random.randint(5, 4)` raises `ValueError`
(modelled by `none`), so the spawn operation does not complete. -/
theorem C9_counterexample :
    CollectibleManager.update ⟨40, 14, [], 100, 0⟩ 100 6 = none := by decide

/-- Claim C9, amended: when the trigger fires
(`frame_count - last_spawn ≥ 100`) and the viewport is tall enough
(`height ≥ 15`, so `randint`'s band `[5, height-10]` is nonempty), the
update completes and appends exactly one collectible at `x = width - 1`
with `y = draw ∈ [5, height-10]` and value 50; for `height < 15` the spawn
raises instead of applying any fallback (see the counterexample). -/
theorem C9_spawn_policy (m : CollectibleManager) (frame_count : ℕ) (draw : ℤ)
    (hint : m.spawn_interval = 100)
    (htrig : (frame_count : ℤ) - m.last_spawn ≥ 100)
    (hh : 15 ≤ m.height) (_hd1 : 5 ≤ draw) (_hd2 : draw ≤ m.height - 10) :
    m.update frame_count draw =
      some { m with
        collectibles := keptAfterScroll m.collectibles
          ++ [Collectible.make ((m.width : ℤ) - 1) draw]
        last_spawn := (frame_count : ℤ) } := by
  rw [CollectibleManager.update]
  have hcond : ((frame_count : ℤ) - m.last_spawn ≥ m.spawn_interval) := by
    rw [hint]; exact htrig
  rw [if_pos hcond]
  have hspawn :
      CollectibleManager.spawn
          { m with collectibles := keptAfterScroll m.collectibles } draw =
        some { m with
          collectibles := keptAfterScroll m.collectibles
            ++ [Collectible.make ((m.width : ℤ) - 1) draw] } := by
    rw [CollectibleManager.spawn, randint,
      if_pos (by omega : (5 : ℤ) ≤ m.height - 10)]
  rw [hspawn]

theorem C9_spawn_policy_witness :
    CollectibleManager.update ⟨40, 20, [], 100, 0⟩ 100 7 =
      some { width := 40
             height := 20
             collectibles := keptAfterScroll []
               ++ [Collectible.make ((40 : ℤ) - 1) 7]
             spawn_interval := 100
             last_spawn := (100 : ℤ) } :=
  C9_spawn_policy ⟨40, 20, [], 100, 0⟩ 100 7 rfl (by decide) (by decide)
    (by decide) (by decide)

/-- Claim C5: the crashed flag starts false; once crashed, a tick changes
nothing but the frame counter (plane, terrain, collectibles, score, and
the high-score-check count are all frozen, so the transition is one-way);
while flying, a tick crashes exactly when
`int(altitude') ≥ (height - heightAt(width // 3)) - 1` on the updated
state, and the high-score check runs exactly at that transition (its call
count grows by 1 then, by 0 on every other tick). -/
theorem C5_crash_state_machine (height : ℤ) (width : ℕ)
    (init_draws : ℕ → ℤ) (loaded : ℤ) (s : GameState) (i : TickInput) :
    (initGameState height width init_draws loaded).crashed = false ∧
    (initGameState height width init_draws loaded).hs_checks = 0 ∧
    (s.crashed = true → stepSim s i = some { s with frame := s.frame + 1 }) ∧
    (s.crashed = false → ∀ s', stepSim s i = some s' →
      ((s'.crashed = true ↔ s.crashCondition i) ∧
        s'.hs_checks = s.hs_checks + (if s'.crashed then 1 else 0) ∧
        s'.frame = s.frame + 1)) := by
  refine ⟨rfl, rfl, ?_, ?_⟩
  · intro hc
    rw [stepSim, if_pos hc]
  · intro hc s' hstep
    rw [stepSim, if_neg (by rw [hc]; exact Bool.false_ne_true)] at hstep
    rcases hm : s.collectible_manager.update s.frame i.spawn_draw with _ | cm
    · rw [hm] at hstep
      exact absurd hstep (by simp)
    · rw [hm] at hstep
      simp only at hstep
      by_cases hcc : pytrunc (s.updatedPlane i).altitude ≥
          s.height - (s.updatedGround i).get_height ((s.plane_col : ℕ) : ℤ) - 1
      · rw [if_pos hcc] at hstep
        cases hstep
        refine ⟨⟨fun _ => hcc, fun _ => rfl⟩, ?_, rfl⟩
        simp
      · rw [if_neg hcc] at hstep
        cases hstep
        refine ⟨⟨fun hfalse => absurd hfalse (by simp), fun hcond => absurd hcond hcc⟩, ?_, rfl⟩
        simp

theorem C5_crash_state_machine_witness :
    (initGameState 20 40 (fun _ => 5) 0).crashed = false ∧
    stepSim
        { plane := ⟨10, 0, 20⟩
          ground := ⟨4, [3, 4, 5, 6], 0⟩
          score_manager := ScoreManager.init 0
          collectible_manager := CollectibleManager.init 4 20
          height := 20
          width := 4
          frame := 7
          crashed := true
          last_collect_frame := -10
          hs_checks := 1 } ⟨0, 3, 7⟩ =
      some { plane := ⟨10, 0, 20⟩
             ground := ⟨4, [3, 4, 5, 6], 0⟩
             score_manager := ScoreManager.init 0
             collectible_manager := CollectibleManager.init 4 20
             height := 20
             width := 4
             frame := 8
             crashed := true
             last_collect_frame := -10
             hs_checks := 1 } :=
  ⟨(C5_crash_state_machine 20 40 (fun _ => 5) 0
      { plane := ⟨10, 0, 20⟩
        ground := ⟨4, [3, 4, 5, 6], 0⟩
        score_manager := ScoreManager.init 0
        collectible_manager := CollectibleManager.init 4 20
        height := 20
        width := 4
        frame := 7
        crashed := true
        last_collect_frame := -10
        hs_checks := 1 } ⟨0, 3, 7⟩).1,
    (C5_crash_state_machine 20 40 (fun _ => 5) 0
      { plane := ⟨10, 0, 20⟩
        ground := ⟨4, [3, 4, 5, 6], 0⟩
        score_manager := ScoreManager.init 0
        collectible_manager := CollectibleManager.init 4 20
        height := 20
        width := 4
        frame := 7
        crashed := true
        last_collect_frame := -10
        hs_checks := 1 } ⟨0, 3, 7⟩).2.2.1 rfl⟩
